import Mathlib

/-
Verification of the StockIt ETL pipeline (src/Stock_It/etl_pipeline.py and
src/Stock_It/main.py) against its natural-language specification.

The relational store is modelled as explicit lists of rows; the SQLAlchemy
session's add/flush/commit/rollback discipline is modelled by explicit state
passing: a load call works on a running store value and either returns the
final store (commit) or the store it started from (rollback).  Python floats
that are only copied, never computed with, are modelled as rationals;
calendar dates and timestamps as natural numbers / integers.  External
collaborators (the sentiment scorer, the market and news providers) are
parameters, with a raised exception modelled as an Option-none result.
-/

namespace StockIt

/-- Row of the stocks table (database_models.Stock).
Modelled from the spec: database_models.py is not under src/; §3 of the spec
gives the entity `Stock` with symbol, companyName, sector, exchange,
marketCap (nullable integer) and isActive. -/
structure Stock where
  stockId : Nat
  symbol : String
  companyName : String
  sector : Option String
  exchange : Option String
  marketCap : Option Int
  isActive : Bool
deriving DecidableEq

/-- Row of the stock_prices table (database_models.StockPrice).
Modelled from the spec: §3 entity `PriceRecord` with composite natural key
(stock, date). -/
structure StockPrice where
  stockId : Nat
  date : Nat
  open_price : Rat
  high_price : Rat
  low_price : Rat
  close_price : Rat
  adjusted_close : Rat
  volume : Int
deriving DecidableEq

/-- Row of the news_sources table (database_models.NewsSource).
Modelled from the spec: §3 entity `NewsSource`. -/
structure NewsSource where
  sourceId : Nat
  sourceName : String
  credibilityScore : Rat
  isActive : Bool
deriving DecidableEq

/-- Row of the financial_news table (database_models.FinancialNews).
Modelled from the spec: §3 entity `NewsArticle`; a row is only ever inserted
with a non-null url, so the url field is a plain string here. -/
structure FinancialNews where
  newsId : Nat
  sourceId : Nat
  title : String
  content : String
  author : Option String
  publishedAt : Nat
  url : String
deriving DecidableEq

/-- Row of the sentiment_analysis table (database_models.SentimentAnalysis).
Modelled from the spec: §3 entity `SentimentRecord`. -/
structure SentimentAnalysis where
  newsId : Nat
  sentiment_score : Rat
  sentiment_label : String
  confidence_score : Rat
  analysis_model : String
deriving DecidableEq

/-- Row of the stock_news_relations table (database_models.StockNewsRelation).
Modelled from the spec: §3 entity `StockNewsRelation`. -/
structure StockNewsRelation where
  stockId : Nat
  newsId : Nat
  relevance_score : Rat
deriving DecidableEq

/-- The relational store: one list of rows per table, plus the identity
generator used by session.flush() to hand out generated primary keys.
Modelled from the spec: §6 store interface (key-based get-or-create,
existence check + insert, field update). -/
structure Store where
  stocks : List Stock
  prices : List StockPrice
  sources : List NewsSource
  news : List FinancialNews
  sentiments : List SentimentAnalysis
  relations : List StockNewsRelation
  nextId : Nat
deriving DecidableEq

/-- A transformed stock record, as built by ETLPipeline.transform_stock_data. -/
structure PriceRecordT where
  symbol : String
  date : Nat
  open_price : Rat
  high_price : Rat
  low_price : Rat
  close_price : Rat
  adjusted_close : Rat
  volume : Int
deriving DecidableEq

/-- A transformed news record, as built by ETLPipeline.transform_news_data.
A Python None url is `none`; `some u` is a non-None url string. -/
structure NewsRecordT where
  title : String
  content : String
  author : Option String
  published_at : Nat
  url : Option String
  source_name : String
deriving DecidableEq

/-- A raw extracted price bar, one row of the DataFrame built by
ETLPipeline.extract_stock_data (keys date/open/high/low/close/volume). -/
structure BarT where
  date : Nat
  openPrice : Rat
  highPrice : Rat
  lowPrice : Rat
  closePrice : Rat
  volume : Int
deriving DecidableEq

/-- A raw extracted news row, one row of the DataFrame consumed by
ETLPipeline.transform_news_data; `none` stands for an absent / NaN / None
field, and for the title and url fields a Python-falsy empty string is kept
as `some ""` since the code tests truthiness itself. -/
structure NewsRowT where
  title : Option String
  content : Option String
  author : Option String
  publishedAt : Nat
  url : Option String
  source_name : Option String
deriving DecidableEq

/-- The company-overview payload consumed by ETLPipeline.load_company_data
(keys Name / Sector / Exchange / MarketCapitalization, each possibly absent). -/
structure CompanyInfoT where
  name : Option String
  sector : Option String
  exchange : Option String
  marketCapitalization : Option String
deriving DecidableEq

/-- Result of one scoring pass of the external sentiment analyzer
(sentiment_analyzer.analyze_financial_sentiment). -/
structure SentimentResult where
  sentiment_score : Rat
  sentiment_label : String
  confidence_score : Rat
deriving DecidableEq

/-- A sentiment scorer: model name and text to a result, `none` modelling a
raised exception in that model's scoring pass. -/
abbrev Scorer := String → String → Option SentimentResult

/-- ETLPipeline.transform_stock_data: map each bar to a storage-ready record,
setting adjusted_close to the close price. -/
def transform_stock_data (data : List BarT) (symbol : String) : List PriceRecordT :=
  data.map (fun row =>
    { symbol := symbol
      date := row.date
      open_price := row.openPrice
      high_price := row.highPrice
      low_price := row.lowPrice
      close_price := row.closePrice
      adjusted_close := row.closePrice
      volume := row.volume })

/-- ETLPipeline.transform_news_data: per-row normalization.  Python truthiness
of a string field is `isSome` together with being nonempty. -/
def transform_news_data (data : List NewsRowT) : List NewsRecordT :=
  data.map (fun row =>
    { title := match row.title with
        | some t => if t != "" then t.take 500 else ""
        | none => ""
      content := row.content.getD ""
      author := row.author.map (fun a => a.take 255)
      published_at := row.publishedAt
      url := match row.url with
        | some u => if u != "" then some (u.take 1000) else none
        | none => none
      source_name := row.source_name.getD "Unknown" })

/-- Body of the per-record loop of ETLPipeline.load_stock_data: get-or-create
the Stock by symbol, then insert the price row unless one already exists for
(stock_id, date). -/
def load_stock_record (db : Store) (record : PriceRecordT) : Store :=
  let p : Store × Stock :=
    match db.stocks.find? (fun s => s.symbol == record.symbol) with
    | some s => (db, s)
    | none =>
      let s : Stock :=
        { stockId := db.nextId
          symbol := record.symbol
          companyName := record.symbol
          sector := none
          exchange := none
          marketCap := none
          isActive := true }
      ({ db with stocks := db.stocks ++ [s], nextId := db.nextId + 1 }, s)
  let db1 := p.1
  let stock := p.2
  match db1.prices.find? (fun pr => pr.stockId == stock.stockId && pr.date == record.date) with
  | some _ => db1
  | none =>
    { db1 with prices := db1.prices ++
        [{ stockId := stock.stockId
           date := record.date
           open_price := record.open_price
           high_price := record.high_price
           low_price := record.low_price
           close_price := record.close_price
           adjusted_close := record.adjusted_close
           volume := record.volume }] }

/-- ETLPipeline.load_stock_data on the exception-free path: process every
record, then commit once and report success. -/
def load_stock_data (db : Store) (transformed_data : List PriceRecordT) : Store × Bool :=
  (transformed_data.foldl load_stock_record db, true)

/-- The inline get-or-create of a NewsSource at the top of the per-record
loop of ETLPipeline.load_news_data (default credibility 0.50, active). -/
def getOrCreateSource (db : Store) (source_name : String) : Store × NewsSource :=
  match db.sources.find? (fun s => s.sourceName == source_name) with
  | some s => (db, s)
  | none =>
    let s : NewsSource :=
      { sourceId := db.nextId
        sourceName := source_name
        credibilityScore := (0.50 : Rat)
        isActive := true }
    ({ db with sources := db.sources ++ [s], nextId := db.nextId + 1 }, s)

/-- ETLPipeline.analyze_and_store_sentiment: score title-space-content with
VADER, store its row, then score with TextBlob and store its row; a raised
exception from either scoring pass is caught, leaving behind exactly the rows
added before the failure. -/
def analyze_and_store_sentiment (scorer : Scorer) (db : Store) (news_record : FinancialNews) : Store :=
  let text_to_analyze := news_record.title ++ " " ++ news_record.content
  match scorer "vader" text_to_analyze with
  | none => db
  | some vader_result =>
    let db1 := { db with sentiments := db.sentiments ++
      [{ newsId := news_record.newsId
         sentiment_score := vader_result.sentiment_score
         sentiment_label := vader_result.sentiment_label
         confidence_score := vader_result.confidence_score
         analysis_model := "VADER" }] }
    match scorer "textblob" text_to_analyze with
    | none => db1
    | some textblob_result =>
      { db1 with sentiments := db1.sentiments ++
        [{ newsId := news_record.newsId
           sentiment_score := textblob_result.sentiment_score
           sentiment_label := textblob_result.sentiment_label
           confidence_score := textblob_result.confidence_score
           analysis_model := "TextBlob" }] }

/-- Body of the per-record loop of ETLPipeline.load_news_data: get-or-create
the NewsSource, then insert the article unless its url is Python-falsy (None
or empty) or an article with that url already exists; on insert, immediately
run sentiment analysis for the new article.  Relevance linking is not
performed here: link_news_to_stocks has no caller in the repository. -/
def load_news_record (scorer : Scorer) (db : Store) (record : NewsRecordT) : Store :=
  let p := getOrCreateSource db record.source_name
  let db1 := p.1
  let source := p.2
  match record.url with
  | none => db1
  | some u =>
    if (db1.news.find? (fun n => n.url == u)).isNone && u != "" then
      let news_record : FinancialNews :=
        { newsId := db1.nextId
          sourceId := source.sourceId
          title := record.title
          content := record.content
          author := record.author
          publishedAt := record.published_at
          url := u }
      let db2 := { db1 with news := db1.news ++ [news_record], nextId := db1.nextId + 1 }
      analyze_and_store_sentiment scorer db2 news_record
    else db1

/-- ETLPipeline.load_news_data on the exception-free path: process every
record, then commit once and report success. -/
def load_news_data (scorer : Scorer) (db : Store) (transformed_data : List NewsRecordT) : Store × Bool :=
  (transformed_data.foldl (load_news_record scorer) db, true)

/-- Substring test of Python's `needle in hay` on strings. -/
def strContains (hay needle : String) : Bool :=
  decide (needle.data <:+: hay.data)

/-- Python str.lower, modelled per character. -/
def strLower (s : String) : String :=
  ⟨s.data.map Char.toLower⟩

/-- The lowercased search text built by ETLPipeline.link_news_to_stocks. -/
def linkSearchText (news_record : FinancialNews) : String :=
  strLower (news_record.title ++ " " ++ news_record.content)

/-- The per-stock mention test of ETLPipeline.link_news_to_stocks: the
lowercased symbol or lowercased company name occurs in the search text. -/
def mentionsStock (stock : Stock) (news_record : FinancialNews) : Bool :=
  strContains (linkSearchText news_record) (strLower stock.symbol) ||
    strContains (linkSearchText news_record) (strLower stock.companyName)

/-- Existence test for a StockNewsRelation row keyed by (stock_id, news_id). -/
def hasRelB (rels : List StockNewsRelation) (sid nid : Nat) : Bool :=
  (rels.find? (fun rel => rel.stockId == sid && rel.newsId == nid)).isSome

/-- The StockNewsRelation row created by link_news_to_stocks, with the fixed
default relevance score 0.75. -/
def defaultRel (sid nid : Nat) : StockNewsRelation :=
  { stockId := sid, newsId := nid, relevance_score := (0.75 : Rat) }

/-- The loop of ETLPipeline.link_news_to_stocks over the active stocks,
acting on the relations table only (the loop adds relation rows and reads
nothing else it could change). -/
def linkRelLoop (news_record : FinancialNews) (stocks : List Stock)
    (rels : List StockNewsRelation) : List StockNewsRelation :=
  stocks.foldl
    (fun acc stock =>
      if mentionsStock stock news_record then
        if hasRelB acc stock.stockId news_record.newsId then acc
        else acc ++ [defaultRel stock.stockId news_record.newsId]
      else acc)
    rels

/-- ETLPipeline.link_news_to_stocks: scan every active stock and create a
relation with default relevance 0.75 for each mentioned stock whose
(stock, news) pair has no relation yet. -/
def link_news_to_stocks (db : Store) (news_record : FinancialNews) : Store :=
  { db with relations :=
      linkRelLoop news_record (db.stocks.filter (fun s => s.isActive)) db.relations }

/-- Digit-list accumulator for the integer parse below. -/
def digitsToNat : List Char → Nat → Option Nat
  | [], acc => some acc
  | c :: cs, acc =>
    if c.isDigit then digitsToNat cs (acc * 10 + (c.toNat - 48)) else none

/-- Python int() applied to a string: an optional sign followed by at least
one digit, anything else raising ValueError (modelled as `none`). -/
def pyParseInt (s : String) : Option Int :=
  match s.data with
  | [] => none
  | c :: cs =>
    if c == '-' then
      match cs with
      | [] => none
      | _ => (digitsToNat cs 0).map (fun n => -(n : Int))
    else if c == '+' then
      match cs with
      | [] => none
      | _ => (digitsToNat cs 0).map (fun n => (n : Int))
    else (digitsToNat (c :: cs) 0).map (fun n => (n : Int))

/-- The market-cap parse of ETLPipeline.load_company_data: the sentinel
string None maps to null, as does any string int() rejects. -/
def parseMarketCap (market_cap_str : String) : Option Int :=
  if market_cap_str == "None" then none else pyParseInt market_cap_str

/-- ETLPipeline.load_company_data: enrich an existing Stock row (never
creating one) with truncated name/sector/exchange and the parsed market cap;
`excC` models a raised store exception during the call, which rolls the call
back and reports failure. -/
def load_company_data (excC : Bool) (db : Store) (company_info : CompanyInfoT)
    (symbol : String) : Store × Bool :=
  if excC then (db, false)
  else
    match db.stocks.find? (fun s => s.symbol == symbol) with
    | none => (db, false)
    | some stock =>
      let stock2 : Stock :=
        { stock with
          companyName := (company_info.name.getD symbol).take 255
          sector := some ((company_info.sector.getD "").take 100)
          exchange := some ((company_info.exchange.getD "").take 50)
          marketCap := parseMarketCap (company_info.marketCapitalization.getD "0") }
      ({ db with stocks :=
          db.stocks.map (fun s => if s.stockId == stock.stockId then stock2 else s) },
        true)

/-- Shared per-batch loop of a load call with its try/commit/except/rollback
discipline: `exc i` says whether processing record number `i` raises a store
exception; the first raise rolls the whole call back to `db0` and reports
failure, otherwise the batch commits once at the end. -/
def batchGo (exc : Nat → Bool) (step : Store → β → Store) (db0 : Store) :
    Store → Nat → List β → Store × Bool
  | acc, _, [] => (acc, true)
  | acc, i, record :: rest =>
    if exc i then (db0, false)
    else batchGo exc step db0 (step acc record) (i + 1) rest

/-- ETLPipeline.load_stock_data with the store-exception oracle `exc`. -/
def load_stock_data_exc (exc : Nat → Bool) (db : Store)
    (transformed_data : List PriceRecordT) : Store × Bool :=
  batchGo exc load_stock_record db db 0 transformed_data

/-- ETLPipeline.load_news_data with the store-exception oracle `exc`
(sentiment-scorer failures are caught inside the per-record step and are not
store exceptions). -/
def load_news_data_exc (exc : Nat → Bool) (scorer : Scorer) (db : Store)
    (transformed_data : List NewsRecordT) : Store × Bool :=
  batchGo exc (load_news_record scorer) db db 0 transformed_data

/-- ETLPipeline.run_stock_etl: extract price bars (already-caught provider
errors surface as `none`), transform, load; then independently extract and
load company info; return the price-load success only. -/
def run_stock_etl (exc : Nat → Bool) (excC : Bool)
    (stock_data : Option (List BarT)) (company_info : Option CompanyInfoT)
    (db : Store) (symbol : String) : Store × Bool :=
  let priceRes : Store × Bool :=
    match stock_data with
    | none => (db, false)
    | some bars =>
      let transformed := transform_stock_data bars symbol
      if transformed.isEmpty then (db, false)
      else load_stock_data_exc exc db transformed
  let db2 : Store :=
    match company_info with
    | none => priceRes.1
    | some info => (load_company_data excC priceRes.1 info symbol).1
  (db2, priceRes.2)

/-- The per-symbol loop of ETLPipeline.run_full_etl: run run_stock_etl for
every tracked symbol in order, ignoring each symbol's returned flag. -/
def processTracked (exc : Nat → Bool) (excC : Bool)
    (stockDataF : String → Option (List BarT))
    (companyInfoF : String → Option CompanyInfoT) :
    List String → Store → Store
  | [], db => db
  | symbol :: rest, db =>
    processTracked exc excC stockDataF companyInfoF rest
      (run_stock_etl exc excC (stockDataF symbol) (companyInfoF symbol) db symbol).1

/-- ETLPipeline.run_news_etl: load the general business batch, then one
symbol-scoped batch per tracked symbol; `newsF none` is the general
extraction, `newsF (some symbol)` the symbol query.  The Python function
body has no return statement, so its value is None, modelled as `none`. -/
def run_news_etl (scorer : Scorer) (newsF : Option String → Option (List NewsRowT))
    (tracked_symbols : List String) (db : Store) : Store × Option Bool :=
  let db1 : Store :=
    match newsF none with
    | none => db
    | some rows =>
      let transformed := transform_news_data rows
      if transformed.isEmpty then db else (load_news_data scorer db transformed).1
  let db2 : Store :=
    tracked_symbols.foldl
      (fun acc symbol =>
        match newsF (some symbol) with
        | none => acc
        | some rows =>
          let transformed := transform_news_data rows
          if transformed.isEmpty then acc else (load_news_data scorer acc transformed).1)
      db1
  (db2, none)

/-- ETLPipeline.run_full_etl: run_stock_etl over every tracked symbol, then
run_news_etl (per-symbol sleeps dropped). -/
def run_full_etl (exc : Nat → Bool) (excC : Bool) (scorer : Scorer)
    (newsF : Option String → Option (List NewsRowT))
    (stockDataF : String → Option (List BarT))
    (companyInfoF : String → Option CompanyInfoT)
    (tracked_symbols : List String) (db : Store) : Store :=
  (run_news_etl scorer newsF tracked_symbols
    (processTracked exc excC stockDataF companyInfoF tracked_symbols db)).1

/-- Python truthiness of an Optional bool, as applied to the value of
run_news_etl by ContinuousStockTracker.fetch_and_store_news_data. -/
def optTruthy : Option Bool → Bool
  | none => false
  | some b => b

/-- The news-related state of ContinuousStockTracker: the last_news_update
timestamp, in seconds. -/
structure TrackerState where
  last_news_update : Int
deriving DecidableEq

/-- ContinuousStockTracker.news_update_interval (seconds). -/
def news_update_interval : Int := 1800

/-- ContinuousStockTracker.should_update_news: elapsed seconds since
last_news_update reach the news interval. -/
def should_update_news (ts : TrackerState) (now : Int) : Bool :=
  decide (news_update_interval ≤ now - ts.last_news_update)

/-- ContinuousStockTracker.fetch_and_store_news_data: run the news ETL, and
only on a truthy result advance last_news_update and return True; otherwise
return False with the timestamp unchanged. -/
def fetch_and_store_news_data (scorer : Scorer)
    (newsF : Option String → Option (List NewsRowT)) (tracked_symbols : List String)
    (ts : TrackerState) (db : Store) (now : Int) : TrackerState × Store × Bool :=
  let res := run_news_etl scorer newsF tracked_symbols db
  if optTruthy res.2 then ({ last_news_update := now }, res.1, true)
  else (ts, res.1, false)

/-- The relation rows that one link_news_to_stocks call adds: one row per
active stock that is mentioned and has no relation for this article yet. -/
def linkNewRels (news_record : FinancialNews) (stocks : List Stock)
    (rels : List StockNewsRelation) : List StockNewsRelation :=
  (stocks.filter (fun s => mentionsStock s news_record &&
      !(hasRelB rels s.stockId news_record.newsId))).map
    (fun s => defaultRel s.stockId news_record.newsId)

/-- A stock row with only identity, symbol, name and active flag set. -/
def mkStock (id : Nat) (sym nm : String) (act : Bool) : Stock :=
  { stockId := id, symbol := sym, companyName := nm, sector := none,
    exchange := none, marketCap := none, isActive := act }

/-- The store with no rows at all. -/
def emptyStore : Store :=
  { stocks := [], prices := [], sources := [], news := [], sentiments := [],
    relations := [], nextId := 1 }

/-- A scorer on which both models always succeed with a neutral result. -/
def scorerZero : Scorer :=
  fun _ _ => some { sentiment_score := 0, sentiment_label := "neutral", confidence_score := 0 }

/-- A scorer on which exactly the VADER pass raises. -/
def scorerVaderFails : Scorer :=
  fun analysis_model _ =>
    if analysis_model == "vader" then none
    else some { sentiment_score := 0, sentiment_label := "neutral", confidence_score := 0 }

/-- A scorer on which exactly the TextBlob pass raises. -/
def scorerTextBlobFails : Scorer :=
  fun analysis_model _ =>
    if analysis_model == "textblob" then none
    else some { sentiment_score := 0, sentiment_label := "neutral", confidence_score := 0 }

/-- Example active stock whose symbol occurs in the example article below. -/
def stX1 : Stock := mkStock 1 "A" "Ax" true

/-- Example store holding only the stock stX1. -/
def dbX1 : Store := { emptyStore with stocks := [stX1], nextId := 2 }

/-- Example transformed news record mentioning the symbol of stX1. -/
def rX1 : NewsRecordT :=
  { title := "A up", content := "", author := none, published_at := 0,
    url := some "u", source_name := "S" }

/-- The article row that loading rX1 into dbX1 inserts. -/
def artX1 : FinancialNews :=
  { newsId := 3, sourceId := 2, title := "A up", content := "", author := none,
    publishedAt := 0, url := "u" }

/-- Example transformed news record for the sentiment-failure scenario. -/
def rX2 : NewsRecordT :=
  { title := "t", content := "", author := none, published_at := 0,
    url := some "u", source_name := "S" }

/-- The article row that loading rX2 into the empty store inserts. -/
def artX2 : FinancialNews :=
  { newsId := 2, sourceId := 1, title := "t", content := "", author := none,
    publishedAt := 0, url := "u" }

/-- Example stock for the price-idempotency witness. -/
def stW3 : Stock := mkStock 1 "A" "A" true

/-- Example already-stored price row for stW3. -/
def pW3 : StockPrice :=
  { stockId := 1, date := 5, open_price := 1, high_price := 2, low_price := 0,
    close_price := 1, adjusted_close := 1, volume := 10 }

/-- Example store holding stW3 and its bar pW3. -/
def dbW3 : Store := { emptyStore with stocks := [stW3], prices := [pW3], nextId := 2 }

/-- Example repeated bar for the same (symbol, date) pair with new values. -/
def recW3 : PriceRecordT :=
  { symbol := "A", date := 5, open_price := 7, high_price := 8, low_price := 6,
    close_price := 7, adjusted_close := 7, volume := 99 }

/-- Example news record, first of two sharing a url. -/
def rW4a : NewsRecordT :=
  { title := "t1", content := "", author := none, published_at := 0,
    url := some "u", source_name := "S" }

/-- Example news record, second of two sharing a url. -/
def rW4b : NewsRecordT :=
  { title := "t2", content := "", author := none, published_at := 0,
    url := some "u", source_name := "S" }

/-- Example news record with a null url. -/
def rW5 : NewsRecordT :=
  { title := "t", content := "c", author := none, published_at := 0,
    url := none, source_name := "S" }


/-- Example store for the company-info witness. -/
def dbW8 : Store := { emptyStore with stocks := [mkStock 1 "A" "Ax" true], nextId := 2 }

/-- Example fundamentals payload whose market cap is the sentinel string. -/
def infoW8 : CompanyInfoT :=
  { name := some "Alpha", sector := some "Tech", exchange := some "X",
    marketCapitalization := some "None" }

/-- Store-exception oracle that always raises. -/
def excAlways : Nat → Bool := fun _ => true

/-- Store-exception oracle that never raises. -/
def excNever : Nat → Bool := fun _ => false

/-- Example store for the relevance-linker witness: one active stock whose
symbol the article artX1 mentions, one inactive stock. -/
def dbL7 : Store :=
  { emptyStore with stocks := [stX1, mkStock 2 "zz" "zz" false], nextId := 3 }

/-- Example extracted bar for the orchestrator witness. -/
def barW6 : BarT :=
  { date := 5, openPrice := 1, highPrice := 1, lowPrice := 1, closePrice := 1, volume := 1 }

/-- Price extraction that fails (returns no data) for every symbol. -/
def stockDataFNone : String → Option (List BarT) := fun _ => none

/-- Fundamentals extraction that fails for every symbol. -/
def companyInfoFNone : String → Option CompanyInfoT := fun _ => none

/-- News extraction that fails for every query. -/
def newsFNone : Option String → Option (List NewsRowT) := fun _ => none

/-- Example tracker state for the news-cycle witness. -/
def tsW10 : TrackerState := { last_news_update := 0 }

/- ===================== Helper lemmas ===================== -/

theorem getOrCreateSource_fields (db : Store) (nm : String) :
    (getOrCreateSource db nm).1.news = db.news ∧
    (getOrCreateSource db nm).1.sentiments = db.sentiments ∧
    (getOrCreateSource db nm).1.relations = db.relations ∧
    (getOrCreateSource db nm).1.stocks = db.stocks ∧
    (getOrCreateSource db nm).1.prices = db.prices := by
  unfold getOrCreateSource
  split <;> simp

theorem analyze_fields (scorer : Scorer) (db : Store) (n : FinancialNews) :
    (analyze_and_store_sentiment scorer db n).news = db.news ∧
    (analyze_and_store_sentiment scorer db n).relations = db.relations ∧
    (analyze_and_store_sentiment scorer db n).sources = db.sources ∧
    (analyze_and_store_sentiment scorer db n).stocks = db.stocks ∧
    (analyze_and_store_sentiment scorer db n).prices = db.prices ∧
    (analyze_and_store_sentiment scorer db n).nextId = db.nextId := by
  rcases h1 : scorer "vader" (n.title ++ " " ++ n.content) with _ | v <;>
    rcases h2 : scorer "textblob" (n.title ++ " " ++ n.content) with _ | t <;>
      simp [analyze_and_store_sentiment, h1, h2]

theorem find?_of_filter_eq_singleton {α} {p : α → Bool} {l : List α} {a : α}
    (h : l.filter p = [a]) : l.find? p = some a := by
  induction l with
  | nil => simp at h
  | cons x xs ih =>
    by_cases hx : p x = true
    · rw [List.filter_cons_of_pos hx] at h
      rw [List.find?_cons_of_pos _ hx]
      exact congrArg some (List.cons_eq_cons.mp h).1
    · rw [List.filter_cons_of_neg (by simpa using hx)] at h
      rw [List.find?_cons_of_neg _ (by simpa using hx)]
      exact ih h

theorem find?_of_filter_eq_nil {α} {p : α → Bool} {l : List α}
    (h : l.filter p = []) : l.find? p = none := by
  rw [List.find?_eq_none]
  intro x hx
  exact (List.filter_eq_nil_iff.mp h) x hx

theorem getOrCreateSource_news (db : Store) (nm : String) :
    (getOrCreateSource db nm).1.news = db.news :=
  (getOrCreateSource_fields db nm).1

theorem getOrCreateSource_sentiments (db : Store) (nm : String) :
    (getOrCreateSource db nm).1.sentiments = db.sentiments :=
  (getOrCreateSource_fields db nm).2.1

theorem getOrCreateSource_relations (db : Store) (nm : String) :
    (getOrCreateSource db nm).1.relations = db.relations :=
  (getOrCreateSource_fields db nm).2.2.1

theorem analyze_news (scorer : Scorer) (db : Store) (n : FinancialNews) :
    (analyze_and_store_sentiment scorer db n).news = db.news :=
  (analyze_fields scorer db n).1

theorem analyze_relations (scorer : Scorer) (db : Store) (n : FinancialNews) :
    (analyze_and_store_sentiment scorer db n).relations = db.relations :=
  (analyze_fields scorer db n).2.1

theorem load_news_record_none (scorer : Scorer) (db : Store) (r : NewsRecordT)
    (hu : r.url = none) :
    load_news_record scorer db r = (getOrCreateSource db r.source_name).1 := by
  simp [load_news_record, hu]

theorem load_news_record_skip (scorer : Scorer) (db : Store) (r : NewsRecordT) (u : String)
    (hu : r.url = some u)
    (hfound : (db.news.find? (fun n => n.url == u)).isSome = true) :
    load_news_record scorer db r = (getOrCreateSource db r.source_name).1 := by
  have hcond : ((getOrCreateSource db r.source_name).1.news.find?
      (fun n => n.url == u)).isNone = false := by
    rw [getOrCreateSource_news]
    simp [Option.isNone_eq_false_iff, Option.isSome_iff_exists] at hfound ⊢
    exact hfound
  simp [load_news_record, hu, hcond]

theorem load_news_record_insert (scorer : Scorer) (db : Store) (r : NewsRecordT) (u : String)
    (hu : r.url = some u) (hne : u ≠ "")
    (hnone : db.news.find? (fun n => n.url == u) = none) :
    ∃ a : FinancialNews, a.title = r.title ∧ a.url = u ∧ a.content = r.content ∧
      (load_news_record scorer db r).news = db.news ++ [a] ∧
      (load_news_record scorer db r).relations = db.relations ∧
      ∃ db2 : Store, db2.news = db.news ++ [a] ∧
        load_news_record scorer db r = analyze_and_store_sentiment scorer db2 a := by
  have hcond : (((getOrCreateSource db r.source_name).1.news.find?
      (fun n => n.url == u)).isNone && (u != "")) = true := by
    rw [getOrCreateSource_news, hnone]
    simp [hne]
  have hstep : load_news_record scorer db r =
      analyze_and_store_sentiment scorer
        { (getOrCreateSource db r.source_name).1 with
          news := (getOrCreateSource db r.source_name).1.news ++
            [{ newsId := (getOrCreateSource db r.source_name).1.nextId
               sourceId := (getOrCreateSource db r.source_name).2.sourceId
               title := r.title, content := r.content, author := r.author
               publishedAt := r.published_at, url := u }]
          nextId := (getOrCreateSource db r.source_name).1.nextId + 1 }
        { newsId := (getOrCreateSource db r.source_name).1.nextId
          sourceId := (getOrCreateSource db r.source_name).2.sourceId
          title := r.title, content := r.content, author := r.author
          publishedAt := r.published_at, url := u } := by
    simp only [load_news_record, hu]
    rw [if_pos hcond]
  refine ⟨{ newsId := (getOrCreateSource db r.source_name).1.nextId
            sourceId := (getOrCreateSource db r.source_name).2.sourceId
            title := r.title, content := r.content, author := r.author
            publishedAt := r.published_at, url := u }, rfl, rfl, rfl, ?_, ?_, ?_⟩
  · rw [hstep, analyze_news]
    simp [getOrCreateSource_news]
  · rw [hstep, analyze_relations]
    simp [getOrCreateSource_relations]
  · refine ⟨_, ?_, hstep⟩
    simp [getOrCreateSource_news]

theorem load_news_record_relations (scorer : Scorer) (db : Store) (r : NewsRecordT) :
    (load_news_record scorer db r).relations = db.relations := by
  cases hu : r.url with
  | none => rw [load_news_record_none scorer db r hu, getOrCreateSource_relations]
  | some u =>
    simp only [load_news_record, hu]
    split
    · rw [analyze_relations]
      exact getOrCreateSource_relations db r.source_name
    · exact getOrCreateSource_relations db r.source_name

theorem foldl_news_relations (scorer : Scorer) :
    ∀ (rs : List NewsRecordT) (db : Store),
      (rs.foldl (load_news_record scorer) db).relations = db.relations := by
  intro rs
  induction rs with
  | nil => intro db; rfl
  | cons r rest ih =>
    intro db
    rw [List.foldl_cons, ih, load_news_record_relations]

/- ===================== Claim C5 ===================== -/

/-- C5: a transformed news record whose url is null never produces a stored
NewsArticle, and no SentimentRecord and no StockNewsRelation is created for
it: the news, sentiment and relation tables are unchanged by loading it. -/
theorem null_url_news_dropped (scorer : Scorer) (db : Store) (r : NewsRecordT)
    (hu : r.url = none) :
    (load_news_data scorer db [r]).1.news = db.news ∧
    (load_news_data scorer db [r]).1.sentiments = db.sentiments ∧
    (load_news_data scorer db [r]).1.relations = db.relations := by
  have h : (load_news_data scorer db [r]).1 = (getOrCreateSource db r.source_name).1 := by
    show ([r].foldl (load_news_record scorer) db) = _
    rw [List.foldl_cons, List.foldl_nil, load_news_record_none scorer db r hu]
  rw [h]
  exact ⟨getOrCreateSource_news db r.source_name,
    getOrCreateSource_sentiments db r.source_name,
    getOrCreateSource_relations db r.source_name⟩

/-- Witness for C5 at a concrete record with a null url. -/
theorem null_url_news_dropped_witness :
    (load_news_data scorerZero emptyStore [rW5]).1.news = emptyStore.news ∧
    (load_news_data scorerZero emptyStore [rW5]).1.sentiments = emptyStore.sentiments ∧
    (load_news_data scorerZero emptyStore [rW5]).1.relations = emptyStore.relations :=
  null_url_news_dropped scorerZero emptyStore rW5 rfl

/- ===================== Claim C3 ===================== -/

/-- C3: price load is idempotent per natural key — if the looked-up stock for
the record symbol already has exactly one stored price row for the record
date, loading the bar again leaves the store untouched (so exactly one row
remains, with the values of the first load, whatever values the repeated bar
carries). -/
theorem price_load_idempotent (db : Store) (r : PriceRecordT) (st : Stock) (p0 : StockPrice)
    (hstock : db.stocks.find? (fun s => s.symbol == r.symbol) = some st)
    (hone : db.prices.filter (fun pr => pr.stockId == st.stockId && pr.date == r.date) = [p0]) :
    load_stock_data db [r] = (db, true) ∧
    (load_stock_data db [r]).1.prices.filter
      (fun pr => pr.stockId == st.stockId && pr.date == r.date) = [p0] := by
  have hfind := find?_of_filter_eq_singleton hone
  have hrec : load_stock_record db r = db := by
    simp only [load_stock_record, hstock]
    rw [hfind]
  have hload : load_stock_data db [r] = (db, true) := by
    show ([r].foldl load_stock_record db, true) = (db, true)
    rw [List.foldl_cons, List.foldl_nil, hrec]
  exact ⟨hload, by rw [hload]; exact hone⟩

/-- Witness for C3: a second bar for the pair (symbol A, date 5) with
different values is a no-op. -/
theorem price_load_idempotent_witness :
    load_stock_data dbW3 [recW3] = (dbW3, true) ∧
    (load_stock_data dbW3 [recW3]).1.prices.filter
      (fun pr => pr.stockId == stW3.stockId && pr.date == recW3.date) = [pW3] :=
  price_load_idempotent dbW3 recW3 stW3 pW3 (by decide) (by decide)

/- ===================== Claim C4 ===================== -/

/-- C4: news load deduplicates by url — loading two records with the same
non-null url and different titles into a store with no article at that url
leaves exactly one stored article at that url, with the first record's
title. -/
theorem news_load_dedup_by_url (scorer : Scorer) (db : Store) (r1 r2 : NewsRecordT) (u : String)
    (h1 : r1.url = some u) (h2 : r2.url = some u) (hne : u ≠ "") (_hdt : r1.title ≠ r2.title)
    (h0 : db.news.filter (fun n => n.url == u) = []) :
    ∃ a : FinancialNews,
      (load_news_data scorer db [r1, r2]).1.news.filter (fun n => n.url == u) = [a] ∧
      a.title = r1.title := by
  have hnone := find?_of_filter_eq_nil h0
  obtain ⟨a, hat, hau, -, hnews, -, -⟩ := load_news_record_insert scorer db r1 u h1 hne hnone
  have hfound : ((load_news_record scorer db r1).news.find? (fun n => n.url == u)).isSome = true := by
    rw [hnews, List.find?_append, hnone]
    simp [List.find?, hau]
  have hskip := load_news_record_skip scorer (load_news_record scorer db r1) r2 u h2 hfound
  refine ⟨a, ?_, hat⟩
  have hfin : (load_news_data scorer db [r1, r2]).1 =
      (getOrCreateSource (load_news_record scorer db r1) r2.source_name).1 := by
    show ([r1, r2].foldl (load_news_record scorer) db) = _
    rw [List.foldl_cons, List.foldl_cons, List.foldl_nil, hskip]
  rw [hfin, getOrCreateSource_news, hnews, List.filter_append, h0]
  simp [List.filter, hau]

/-- Witness for C4 at two concrete records sharing url u. -/
theorem news_load_dedup_by_url_witness :
    ∃ a : FinancialNews,
      (load_news_data scorerZero emptyStore [rW4a, rW4b]).1.news.filter
        (fun n => n.url == "u") = [a] ∧
      a.title = rW4a.title :=
  news_load_dedup_by_url scorerZero emptyStore rW4a rW4b "u" rfl rfl
    (by decide) (by decide) rfl


/- ===================== Claim C1 ===================== -/

/-- C1: counterexample — loading a fresh article whose text mentions the
active stock stX1 inserts the article but creates no StockNewsRelation at
all, so the news load does not invoke relevance linking for the newly
inserted article. -/
theorem news_load_never_links_cex :
    (load_news_data scorerZero dbX1 [rX1]).1.news = [artX1] ∧
    dbX1.stocks = [stX1] ∧ stX1.isActive = true ∧
    mentionsStock stX1 artX1 = true ∧
    dbX1.relations = [] ∧
    (load_news_data scorerZero dbX1 [rX1]).1.relations = [] :=
  ⟨by decide, by decide, by decide, by decide, by decide, by decide⟩

/-- C1 (amended): for every transformed news record with a non-null url that
is not already stored, the news load invokes sentiment analysis for the
newly inserted article before the batch completes, but it never invokes
relevance linking: the stored relations are unchanged by any news load. -/
theorem news_load_sentiment_only (scorer : Scorer) (db : Store) (rs : List NewsRecordT)
    (r : NewsRecordT) (u : String) (hu : r.url = some u) (hne : u ≠ "")
    (hnone : db.news.find? (fun n => n.url == u) = none) :
    (load_news_data scorer db rs).1.relations = db.relations ∧
    ∃ a db2, a.title = r.title ∧ a.url = u ∧ db2.news = db.news ++ [a] ∧
      (load_news_record scorer db r).news = db.news ++ [a] ∧
      load_news_record scorer db r = analyze_and_store_sentiment scorer db2 a := by
  obtain ⟨a, hat, hau, -, hnews, -, db2, hdb2, hstep⟩ :=
    load_news_record_insert scorer db r u hu hne hnone
  exact ⟨foldl_news_relations scorer rs db, a, db2, hat, hau, hdb2, hnews, hstep⟩

/-- Witness for the amended C1 at a concrete fresh record. -/
theorem news_load_sentiment_only_witness :
    (load_news_data scorerZero emptyStore [rX2]).1.relations = emptyStore.relations ∧
    ∃ a db2, a.title = rX2.title ∧ a.url = "u" ∧ db2.news = emptyStore.news ++ [a] ∧
      (load_news_record scorerZero emptyStore rX2).news = emptyStore.news ++ [a] ∧
      load_news_record scorerZero emptyStore rX2 =
        analyze_and_store_sentiment scorerZero db2 a :=
  news_load_sentiment_only scorerZero emptyStore [rX2] rX2 "u" rfl (by decide) rfl

/- ===================== Claim C2 ===================== -/

/-- C2: counterexample — on a scorer where exactly the VADER pass fails (and
the TextBlob pass would succeed), the newly inserted article ends up with no
SentimentRecord at all, not with exactly one; the load call still reports
success. -/
theorem sentiment_vader_failure_cex :
    scorerVaderFails "vader" (artX2.title ++ " " ++ artX2.content) = none ∧
    (scorerVaderFails "textblob" (artX2.title ++ " " ++ artX2.content)).isSome = true ∧
    (load_news_data scorerVaderFails emptyStore [rX2]).1.news = [artX2] ∧
    (load_news_data scorerVaderFails emptyStore [rX2]).1.sentiments = [] ∧
    (load_news_data scorerVaderFails emptyStore [rX2]).2 = true :=
  ⟨by decide, by decide, by decide, by decide, by decide⟩

/-- C2 (amended): if the VADER pass fails, no SentimentRecord is stored for
the article; if VADER succeeds and the TextBlob pass fails, exactly the
VADER record is stored; and in every case no exception escapes the sentiment
step — the news load call still reports success. -/
theorem sentiment_partial_failure_spec (scorer : Scorer) (db : Store) (n : FinancialNews) :
    (scorer "vader" (n.title ++ " " ++ n.content) = none →
      (analyze_and_store_sentiment scorer db n).sentiments = db.sentiments) ∧
    (∀ v, scorer "vader" (n.title ++ " " ++ n.content) = some v →
      scorer "textblob" (n.title ++ " " ++ n.content) = none →
      (analyze_and_store_sentiment scorer db n).sentiments = db.sentiments ++
        [{ newsId := n.newsId, sentiment_score := v.sentiment_score,
           sentiment_label := v.sentiment_label, confidence_score := v.confidence_score,
           analysis_model := "VADER" }]) ∧
    (∀ rs : List NewsRecordT, (load_news_data scorer db rs).2 = true) := by
  refine ⟨fun hv => ?_, fun v hv ht => ?_, fun rs => rfl⟩
  · simp [analyze_and_store_sentiment, hv]
  · simp [analyze_and_store_sentiment, hv, ht]

/-- Witness for the amended C2 at concrete scorers failing in exactly one
model each. -/
theorem sentiment_partial_failure_spec_witness :
    (analyze_and_store_sentiment scorerVaderFails emptyStore artX2).sentiments =
      emptyStore.sentiments ∧
    (analyze_and_store_sentiment scorerTextBlobFails emptyStore artX2).sentiments =
      emptyStore.sentiments ++
        [{ newsId := artX2.newsId, sentiment_score := 0, sentiment_label := "neutral",
           confidence_score := 0, analysis_model := "VADER" }] ∧
    (load_news_data scorerZero emptyStore []).2 = true :=
  ⟨(sentiment_partial_failure_spec scorerVaderFails emptyStore artX2).1 (by decide),
   (sentiment_partial_failure_spec scorerTextBlobFails emptyStore artX2).2.1
     { sentiment_score := 0, sentiment_label := "neutral", confidence_score := 0 }
     (by decide) (by decide),
   (sentiment_partial_failure_spec scorerZero emptyStore artX2).2.2 []⟩


/- ===================== Claim C8 ===================== -/

theorem find?_replace_by_id (l : List Stock) (st st2 : Stock)
    (hmem : st ∈ l) (hnd : (l.map (fun s => s.stockId)).Nodup)
    (hid : st2.stockId = st.stockId) :
    (l.map (fun s => if s.stockId == st.stockId then st2 else s)).find?
      (fun s => s.stockId == st.stockId) = some st2 := by
  induction l with
  | nil => cases hmem
  | cons x xs ih =>
    simp only [List.map_cons]
    have hnd2 : (xs.map (fun s => s.stockId)).Nodup := by
      simp only [List.map_cons, List.nodup_cons] at hnd
      exact hnd.2
    by_cases hx : (x.stockId == st.stockId) = true
    · rw [if_pos hx, List.find?_cons_of_pos _ (by simp [hid])]
    · rw [if_neg hx, List.find?_cons_of_neg _ (by simpa using hx)]
      cases List.mem_cons.mp hmem with
      | inl he => exact absurd (by rw [he]; simp) hx
      | inr hmem2 => exact ih hmem2 hnd2

/-- C8: company-info load for a symbol with no Stock row reports failure and
leaves the store unchanged; when the row exists it reports success and
overwrites companyName, sector and exchange with truncation to 255, 100 and
50 characters and stores the parsed market cap, where a parse failure or the
sentinel string None yields null instead of an error. -/
theorem load_company_data_spec (db : Store) (info : CompanyInfoT) (symbol : String)
    (hnd : (db.stocks.map (fun s => s.stockId)).Nodup) :
    (db.stocks.find? (fun s => s.symbol == symbol) = none →
      load_company_data false db info symbol = (db, false)) ∧
    (∀ st, db.stocks.find? (fun s => s.symbol == symbol) = some st →
      (load_company_data false db info symbol).2 = true ∧
      (load_company_data false db info symbol).1.stocks.find?
          (fun s => s.stockId == st.stockId) =
        some { st with
          companyName := (info.name.getD symbol).take 255
          sector := some ((info.sector.getD "").take 100)
          exchange := some ((info.exchange.getD "").take 50)
          marketCap := parseMarketCap (info.marketCapitalization.getD "0") }) ∧
    (∀ s, s = "None" ∨ pyParseInt s = none → parseMarketCap s = none) := by
  refine ⟨fun hnone => ?_, fun st hst => ?_, fun s hs => ?_⟩
  · simp [load_company_data, hnone]
  · have hmem := List.mem_of_find?_eq_some hst
    refine ⟨by simp [load_company_data, hst], ?_⟩
    simp only [load_company_data, hst, Bool.false_eq_true, if_false]
    exact find?_replace_by_id db.stocks st _ hmem hnd rfl
  · rcases hs with h | h
    · simp [parseMarketCap, h]
    · by_cases hN : (s == "None") = true
      · simp [parseMarketCap, hN]
      · simp [parseMarketCap, hN, h]

/-- Witness for C8: a missing symbol fails without touching the store; an
existing one is enriched, with the sentinel market cap stored as null. -/
theorem load_company_data_spec_witness :
    load_company_data false dbW8 infoW8 "B" = (dbW8, false) ∧
    ((load_company_data false dbW8 infoW8 "A").2 = true ∧
      (load_company_data false dbW8 infoW8 "A").1.stocks.find?
        (fun s => s.stockId == (mkStock 1 "A" "Ax" true).stockId) =
      some { mkStock 1 "A" "Ax" true with
        companyName := (infoW8.name.getD "A").take 255
        sector := some ((infoW8.sector.getD "").take 100)
        exchange := some ((infoW8.exchange.getD "").take 50)
        marketCap := parseMarketCap (infoW8.marketCapitalization.getD "0") }) ∧
    parseMarketCap "None" = none :=
  ⟨(load_company_data_spec dbW8 infoW8 "B" (by decide)).1 (by decide),
   (load_company_data_spec dbW8 infoW8 "A" (by decide)).2.1 (mkStock 1 "A" "Ax" true) (by decide),
   (load_company_data_spec dbW8 infoW8 "A" (by decide)).2.2 "None" (Or.inl rfl)⟩

/- ===================== Claim C9 ===================== -/

theorem batchGo_success {β : Type} (exc : Nat → Bool) (step : Store → β → Store) (db0 : Store) :
    ∀ (l : List β) (acc : Store) (i : Nat), (∀ j, j < l.length → exc (i + j) = false) →
      batchGo exc step db0 acc i l = (l.foldl step acc, true) := by
  intro l
  induction l with
  | nil => intro acc i h; rfl
  | cons b rest ih =>
    intro acc i h
    have h0 : exc i = false := by simpa using h 0 (by simp)
    simp only [batchGo, h0, Bool.false_eq_true, if_false, List.foldl_cons]
    exact ih (step acc b) (i + 1) (fun j hj => by
      have := h (j + 1) (by simpa using Nat.succ_lt_succ hj)
      rwa [show i + (j + 1) = i + 1 + j by omega] at this)

theorem batchGo_failure {β : Type} (exc : Nat → Bool) (step : Store → β → Store) (db0 : Store) :
    ∀ (l : List β) (acc : Store) (i : Nat), (∃ j, j < l.length ∧ exc (i + j) = true) →
      batchGo exc step db0 acc i l = (db0, false) := by
  intro l
  induction l with
  | nil =>
    rintro acc i ⟨j, hj, -⟩
    simp at hj
  | cons b rest ih =>
    rintro acc i ⟨j, hj, hexc⟩
    by_cases h0 : exc i = true
    · simp only [batchGo, h0, if_true]
    · have h0f : exc i = false := by simpa using h0
      have hj0 : j ≠ 0 := by
        rintro rfl
        rw [Nat.add_zero] at hexc
        exact h0 hexc
      obtain ⟨j2, rfl⟩ : ∃ j2, j = j2 + 1 := ⟨j - 1, by omega⟩
      simp only [batchGo, h0f, Bool.false_eq_true, if_false]
      exact ih (step acc b) (i + 1)
        ⟨j2, by simpa using Nat.lt_of_succ_lt_succ (by simpa using hj),
          by rwa [show i + 1 + j2 = i + (j2 + 1) by omega]⟩

/-- C9: each load call is atomic at the batch level — if a store exception
is raised while processing any record of the batch, the whole call rolls
back to the pre-call store and reports failure; if no exception is raised,
the call commits exactly the batch's writes once and reports success.  This
holds for the price load and for the news load. -/
theorem load_batch_atomicity (exc excN : Nat → Bool) (scorer : Scorer) (db : Store)
    (rs : List PriceRecordT) (ns : List NewsRecordT) :
    ((∃ i, i < rs.length ∧ exc i = true) → load_stock_data_exc exc db rs = (db, false)) ∧
    ((∀ i, i < rs.length → exc i = false) →
      load_stock_data_exc exc db rs = ((load_stock_data db rs).1, true)) ∧
    ((∃ i, i < ns.length ∧ excN i = true) → load_news_data_exc excN scorer db ns = (db, false)) ∧
    ((∀ i, i < ns.length → excN i = false) →
      load_news_data_exc excN scorer db ns = ((load_news_data scorer db ns).1, true)) := by
  refine ⟨fun h => ?_, fun h => ?_, fun h => ?_, fun h => ?_⟩
  · obtain ⟨i, hi, he⟩ := h
    exact batchGo_failure exc load_stock_record db rs db 0 ⟨i, hi, by simpa using he⟩
  · exact batchGo_success exc load_stock_record db rs db 0 (fun j hj => by simpa using h j hj)
  · obtain ⟨i, hi, he⟩ := h
    exact batchGo_failure excN (load_news_record scorer) db ns db 0 ⟨i, hi, by simpa using he⟩
  · exact batchGo_success excN (load_news_record scorer) db ns db 0
      (fun j hj => by simpa using h j hj)

/-- Witness for C9: with an always-raising oracle a one-record batch rolls
back to the starting store; with a never-raising oracle it commits. -/
theorem load_batch_atomicity_witness :
    load_stock_data_exc excAlways emptyStore [recW3] = (emptyStore, false) ∧
    load_stock_data_exc excNever emptyStore [recW3] =
      ((load_stock_data emptyStore [recW3]).1, true) ∧
    load_news_data_exc excAlways scorerZero emptyStore [rX2] = (emptyStore, false) ∧
    load_news_data_exc excNever scorerZero emptyStore [rX2] =
      ((load_news_data scorerZero emptyStore [rX2]).1, true) :=
  ⟨(load_batch_atomicity excAlways excAlways scorerZero emptyStore [recW3] [rX2]).1
      ⟨0, by decide, rfl⟩,
   (load_batch_atomicity excNever excNever scorerZero emptyStore [recW3] [rX2]).2.1
      (fun _ _ => rfl),
   (load_batch_atomicity excAlways excAlways scorerZero emptyStore [recW3] [rX2]).2.2.1
      ⟨0, by decide, rfl⟩,
   (load_batch_atomicity excNever excNever scorerZero emptyStore [recW3] [rX2]).2.2.2
      (fun _ _ => rfl)⟩


/- ===================== Claim C7 ===================== -/

theorem hasRelB_append (A B : List StockNewsRelation) (sid nid : Nat) :
    hasRelB (A ++ B) sid nid = (hasRelB A sid nid || hasRelB B sid nid) := by
  unfold hasRelB
  rw [List.find?_append]
  cases A.find? (fun rel => rel.stockId == sid && rel.newsId == nid) <;> simp [Option.or]

theorem hasRelB_singleton_ne (rel : StockNewsRelation) (sid nid : Nat)
    (h : rel.stockId ≠ sid) : hasRelB [rel] sid nid = false := by
  have hb : (rel.stockId == sid) = false := by simpa using h
  simp [hasRelB, List.find?, hb]

theorem linkNewRels_snoc_other (n : FinancialNews) (rest : List Stock)
    (rels : List StockNewsRelation) (rel : StockNewsRelation)
    (hrel : rel.stockId ∉ rest.map (fun t => t.stockId)) :
    linkNewRels n rest (rels ++ [rel]) = linkNewRels n rest rels := by
  unfold linkNewRels
  refine congrArg _ (List.filter_congr ?_)
  intro t htm
  have htne : rel.stockId ≠ t.stockId := fun he => hrel (he ▸ List.mem_map_of_mem _ htm)
  rw [hasRelB_append, hasRelB_singleton_ne _ _ _ htne, Bool.or_false]

theorem linkRelLoop_closed (n : FinancialNews) :
    ∀ (stocks : List Stock) (rels : List StockNewsRelation),
      (stocks.map (fun s => s.stockId)).Nodup →
      linkRelLoop n stocks rels = rels ++ linkNewRels n stocks rels := by
  intro stocks
  induction stocks with
  | nil => intro rels _; simp [linkRelLoop, linkNewRels]
  | cons s rest ih =>
    intro rels hnd
    have hs_not : s.stockId ∉ rest.map (fun t => t.stockId) := by
      simp only [List.map_cons, List.nodup_cons] at hnd
      exact hnd.1
    have hnd2 : (rest.map (fun t => t.stockId)).Nodup := by
      simp only [List.map_cons, List.nodup_cons] at hnd
      exact hnd.2
    have ihu := fun rels2 => ih rels2 hnd2
    unfold linkRelLoop at ihu ⊢
    rw [List.foldl_cons]
    by_cases hm : mentionsStock s n = true
    · by_cases hr : hasRelB rels s.stockId n.newsId = true
      · rw [if_pos hm, if_pos hr, ihu rels]
        unfold linkNewRels
        rw [List.filter_cons_of_neg (by simp [hm, hr])]
      · rw [if_pos hm, if_neg hr, ihu (rels ++ [defaultRel s.stockId n.newsId]),
          linkNewRels_snoc_other n rest rels (defaultRel s.stockId n.newsId) hs_not]
        have hrf : hasRelB rels s.stockId n.newsId = false := by simpa using hr
        have hcons : linkNewRels n (s :: rest) rels =
            defaultRel s.stockId n.newsId :: linkNewRels n rest rels := by
          unfold linkNewRels
          rw [List.filter_cons_of_pos (by simp [hm, hrf]), List.map_cons]
        rw [hcons]
        simp
    · rw [if_neg hm, ihu rels]
      unfold linkNewRels
      rw [List.filter_cons_of_neg (by simp [(by simpa using hm : mentionsStock s n = false)])]

theorem hasRelB_linkNewRels (n : FinancialNews) (stocks : List Stock)
    (rels : List StockNewsRelation) (s : Stock)
    (hinj : ∀ t ∈ stocks, t.stockId = s.stockId → t = s) :
    (hasRelB (linkNewRels n stocks rels) s.stockId n.newsId = true ↔
      (s ∈ stocks ∧ mentionsStock s n = true ∧
        hasRelB rels s.stockId n.newsId = false)) := by
  unfold hasRelB linkNewRels
  rw [List.find?_isSome]
  constructor
  · rintro ⟨rel, hmem, hpred⟩
    obtain ⟨t, htf, rfl⟩ := List.mem_map.mp hmem
    obtain ⟨htmem, htcond⟩ := List.mem_filter.mp htf
    have hts : t.stockId = s.stockId := by
      simp [defaultRel] at hpred
      exact hpred
    have hteq := hinj t htmem hts
    subst hteq
    simp only [Bool.and_eq_true, Bool.not_eq_true'] at htcond
    exact ⟨htmem, htcond.1, htcond.2⟩
  · rintro ⟨hsm, hm, hrf⟩
    exact ⟨defaultRel s.stockId n.newsId,
      List.mem_map_of_mem _ (List.mem_filter.mpr ⟨hsm, by simp [hasRelB, hm, hrf]⟩),
      by simp [defaultRel]⟩

/-- C7: for every active stock and persisted article, link_news_to_stocks
creates a relation with relevanceScore 0.75 exactly when the stock's symbol
or company name appears case-insensitively in the title-space-content text
and no relation for the pair exists yet; relations for inactive stocks are
never created, and every created relation carries score 0.75 and points at a
mentioned active stock. -/
theorem link_news_to_stocks_spec (db : Store) (n : FinancialNews) (s : Stock)
    (hnd : (db.stocks.map (fun t => t.stockId)).Nodup) (hs : s ∈ db.stocks) :
    (hasRelB (link_news_to_stocks db n).relations s.stockId n.newsId = true ↔
      (hasRelB db.relations s.stockId n.newsId = true ∨
        (s.isActive = true ∧ mentionsStock s n = true))) ∧
    (s.isActive = true → mentionsStock s n = true →
      hasRelB db.relations s.stockId n.newsId = false →
      defaultRel s.stockId n.newsId ∈ (link_news_to_stocks db n).relations) ∧
    (∀ rel : StockNewsRelation, rel ∈ (link_news_to_stocks db n).relations →
      rel ∉ db.relations →
      rel.relevance_score = (0.75 : Rat) ∧ rel.newsId = n.newsId ∧
      ∃ t, t ∈ db.stocks ∧ t.isActive = true ∧ mentionsStock t n = true ∧
        rel.stockId = t.stockId ∧ hasRelB db.relations t.stockId n.newsId = false) := by
  have hndf : ((db.stocks.filter (fun t => t.isActive)).map (fun t => t.stockId)).Nodup :=
    hnd.sublist ((List.filter_sublist db.stocks).map _)
  have hrels : (link_news_to_stocks db n).relations =
      db.relations ++ linkNewRels n (db.stocks.filter (fun t => t.isActive)) db.relations :=
    linkRelLoop_closed n _ db.relations hndf
  have hinj : ∀ t ∈ db.stocks.filter (fun t => t.isActive), t.stockId = s.stockId → t = s :=
    fun t htm hts => List.inj_on_of_nodup_map hnd (List.mem_of_mem_filter htm) hs hts
  have hmemf : s ∈ db.stocks.filter (fun t => t.isActive) ↔ s.isActive = true := by
    rw [List.mem_filter]
    simp [hs]
  have hlnr := hasRelB_linkNewRels n (db.stocks.filter (fun t => t.isActive)) db.relations s hinj
  refine ⟨?_, ?_, ?_⟩
  · rw [hrels, hasRelB_append, Bool.or_eq_true]
    constructor
    · rintro (h | h)
      · exact Or.inl h
      · have h2 := hlnr.mp h
        exact Or.inr ⟨hmemf.mp h2.1, h2.2.1⟩
    · rintro (h | ⟨ha, hm⟩)
      · exact Or.inl h
      · by_cases hdb : hasRelB db.relations s.stockId n.newsId = true
        · exact Or.inl hdb
        · exact Or.inr (hlnr.mpr ⟨hmemf.mpr ha, hm, by simpa using hdb⟩)
  · intro ha hm hrf
    rw [hrels]
    refine List.mem_append_right _ ?_
    exact List.mem_map_of_mem _ (List.mem_filter.mpr ⟨hmemf.mpr ha, by simp [hm, hrf]⟩)
  · intro rel hmem hnotin
    rw [hrels] at hmem
    rcases List.mem_append.mp hmem with h | h
    · exact absurd h hnotin
    · obtain ⟨t, htf, rfl⟩ := List.mem_map.mp h
      obtain ⟨htact, htcond⟩ := List.mem_filter.mp htf
      obtain ⟨htmem, hact⟩ := List.mem_filter.mp htact
      simp only [Bool.and_eq_true, Bool.not_eq_true'] at htcond
      exact ⟨rfl, rfl, t, htmem, hact, htcond.1, rfl, htcond.2⟩

/-- Witness for C7: in a concrete store the mentioned active stock gets its
0.75 relation. -/
theorem link_news_to_stocks_spec_witness :
    (hasRelB (link_news_to_stocks dbL7 artX1).relations stX1.stockId artX1.newsId = true ↔
      (hasRelB dbL7.relations stX1.stockId artX1.newsId = true ∨
        (stX1.isActive = true ∧ mentionsStock stX1 artX1 = true))) ∧
    defaultRel stX1.stockId artX1.newsId ∈ (link_news_to_stocks dbL7 artX1).relations :=
  ⟨(link_news_to_stocks_spec dbL7 artX1 stX1 (by decide) (by decide)).1,
   (link_news_to_stocks_spec dbL7 artX1 stX1 (by decide) (by decide)).2.1
     (by decide) (by decide) (by decide)⟩


/- ===================== Claim C6 ===================== -/

/-- C6: run_stock_etl returns true exactly when the price-data load
succeeded — its return value is independent of the company-info stage and of
company-load failures, it is false when price extraction yields no data or a
store exception interrupts the price load, and true when bars are present
and the load commits; and a symbol for which every extraction fails
contributes nothing to run_full_etl, which processes the remaining tracked
symbols exactly as if the failing symbol were absent. -/
theorem run_stock_etl_success_spec (exc : Nat → Bool) (excC excC2 : Bool)
    (sd : Option (List BarT)) (ci ci2 : Option CompanyInfoT) (db : Store) (symbol : String) :
    ((run_stock_etl exc excC sd ci db symbol).2 =
      (run_stock_etl exc excC2 sd ci2 db symbol).2) ∧
    (sd = none → (run_stock_etl exc excC sd ci db symbol).2 = false) ∧
    (∀ bars, sd = some bars → (∃ i, i < bars.length ∧ exc i = true) →
      (run_stock_etl exc excC sd ci db symbol).2 = false) ∧
    (∀ bars, sd = some bars → bars ≠ [] → (∀ i, i < bars.length → exc i = false) →
      (run_stock_etl exc excC sd ci db symbol).2 = true) ∧
    (∀ (scorer : Scorer) (newsF : Option String → Option (List NewsRowT))
        (stockDataF : String → Option (List BarT))
        (companyInfoF : String → Option CompanyInfoT)
        (symX : String) (rest : List String) (db2 : Store),
      stockDataF symX = none → companyInfoF symX = none → newsF (some symX) = none →
      run_full_etl exc excC scorer newsF stockDataF companyInfoF (symX :: rest) db2 =
        run_full_etl exc excC scorer newsF stockDataF companyInfoF rest db2) := by
  refine ⟨rfl, fun h => by subst h; rfl, ?_, ?_, ?_⟩
  · rintro bars rfl ⟨i, hi, he⟩
    cases bars with
    | nil => simp at hi
    | cons b bs =>
      have hemp : (transform_stock_data (b :: bs) symbol).isEmpty = false := by
        simp [transform_stock_data]
      have hfail : load_stock_data_exc exc db (transform_stock_data (b :: bs) symbol) =
          (db, false) :=
        batchGo_failure exc load_stock_record db (transform_stock_data (b :: bs) symbol) db 0
          ⟨i, by simpa [transform_stock_data] using hi, by simpa using he⟩
      simp only [run_stock_etl, hemp, Bool.false_eq_true, if_false]
      rw [hfail]
  · rintro bars rfl hne hok
    cases bars with
    | nil => exact absurd rfl hne
    | cons b bs =>
      have hemp : (transform_stock_data (b :: bs) symbol).isEmpty = false := by
        simp [transform_stock_data]
      have hsucc : load_stock_data_exc exc db (transform_stock_data (b :: bs) symbol) =
          ((transform_stock_data (b :: bs) symbol).foldl load_stock_record db, true) :=
        batchGo_success exc load_stock_record db (transform_stock_data (b :: bs) symbol) db 0
          (fun j hj => by simpa using hok j (by simpa [transform_stock_data] using hj))
      simp only [run_stock_etl, hemp, Bool.false_eq_true, if_false]
      rw [hsucc]
  · intro scorer newsF stockDataF companyInfoF symX rest db2 h1 h2 h3
    unfold run_full_etl
    have hpt : processTracked exc excC stockDataF companyInfoF (symX :: rest) db2 =
        processTracked exc excC stockDataF companyInfoF rest db2 := by
      simp [processTracked, run_stock_etl, h1, h2]
    rw [hpt]
    simp [run_news_etl, h3, List.foldl_cons]

/-- Witness for C6 at concrete extraction outcomes and exception oracles. -/
theorem run_stock_etl_success_spec_witness :
    ((run_stock_etl excNever true (some [barW6]) (some infoW8) emptyStore "A").2 =
      (run_stock_etl excNever false (some [barW6]) none emptyStore "A").2) ∧
    (run_stock_etl excNever false none none emptyStore "A").2 = false ∧
    (run_stock_etl excAlways false (some [barW6]) none emptyStore "A").2 = false ∧
    (run_stock_etl excNever false (some [barW6]) none emptyStore "A").2 = true ∧
    run_full_etl excNever false scorerZero newsFNone stockDataFNone companyInfoFNone
      ["X"] emptyStore =
      run_full_etl excNever false scorerZero newsFNone stockDataFNone companyInfoFNone
        [] emptyStore :=
  ⟨(run_stock_etl_success_spec excNever true false (some [barW6]) (some infoW8) none
      emptyStore "A").1,
   (run_stock_etl_success_spec excNever false false none none none emptyStore "A").2.1 rfl,
   (run_stock_etl_success_spec excAlways false false (some [barW6]) none none
      emptyStore "A").2.2.1 [barW6] rfl ⟨0, by decide, rfl⟩,
   (run_stock_etl_success_spec excNever false false (some [barW6]) none none
      emptyStore "A").2.2.2.1 [barW6] rfl (by decide) (fun _ _ => rfl),
   (run_stock_etl_success_spec excNever false false none none none emptyStore "A").2.2.2.2
      scorerZero newsFNone stockDataFNone companyInfoFNone "X" [] emptyStore rfl rfl rfl⟩

/- ===================== Claim C10 ===================== -/

/-- C10: run_news_etl always returns None; fetch_and_store_news_data
therefore treats every news run as failed, returns false and leaves
last_news_update unchanged, and should_update_news, once true, remains true
at every later time. -/
theorem run_news_etl_returns_none_spec (scorer : Scorer)
    (newsF : Option String → Option (List NewsRowT)) (symbols : List String)
    (ts : TrackerState) (db : Store) (now now2 : Int)
    (hnow : should_update_news ts now = true) (hle : now ≤ now2) :
    (run_news_etl scorer newsF symbols db).2 = none ∧
    fetch_and_store_news_data scorer newsF symbols ts db now =
      (ts, (run_news_etl scorer newsF symbols db).1, false) ∧
    should_update_news ts now2 = true := by
  refine ⟨rfl, rfl, ?_⟩
  simp only [should_update_news, decide_eq_true_eq] at hnow ⊢
  omega

/-- Witness for C10 at a concrete tracker state and clock. -/
theorem run_news_etl_returns_none_spec_witness :
    (run_news_etl scorerZero newsFNone ["A"] emptyStore).2 = none ∧
    fetch_and_store_news_data scorerZero newsFNone ["A"] tsW10 emptyStore 1800 =
      (tsW10, (run_news_etl scorerZero newsFNone ["A"] emptyStore).1, false) ∧
    should_update_news tsW10 2000 = true :=
  run_news_etl_returns_none_spec scorerZero newsFNone ["A"] tsW10 emptyStore 1800 2000
    (by decide) (by decide)

end StockIt
